import Mathlib

/-
Verification of the ingest-and-normalize pipeline of the
af-belgium-train-schedules repository.

The development shallowly embeds the Python source:

* `src/utils/irail_client.py` — `IRailClient.get_schedules`,
  `IRailClient.__parse_liveboard_data`, `IRailClient._parse_timestamp`;
* `src/utils/db_client.py` — `DatabaseClient.clear_old_data`,
  `DatabaseClient.insert_schedules` (row-level SQL modelled as list
  operations inside an atomically committed/rolled-back transaction);
* `src/function_app.py` — `update_schedules_logic`;
* `src/update_schedules/__init__.py` — the direction order of the legacy
  `main` endpoint's fetch loop.

Python's loosely typed JSON values are modelled by `JValue`; the Python
exceptions which the source distinguishes in its `except` clauses are the
constructors of `PyErr`; fallible Python code becomes `Except PyErr`.
Timezone-aware datetimes are represented by their POSIX timestamp tagged
with the Europe/Brussels zone (`BrusselsDT`); `timedelta` addition is
modelled as timestamp addition, which agrees with Python except within a
DST transition hour, a regime no statement below involves.
-/

namespace TrainSchedules

/-- JSON-like Python values as they arrive from `response.json()`. -/
inductive JValue where
  | jnull
  | jbool (b : Bool)
  | jnum (n : Int)
  | jstr (s : String)
  | jarr (xs : List JValue)
  | jobj (fields : List (String × JValue))

/-- Python exception classes that the source's `except` clauses tell apart:
`AttributeError` (attribute access on the wrong type, e.g. `.get` on a
non-dict or `.split` on `None`), `ValueError` (e.g. `int("abc")`) and
`TypeError` (e.g. `int(None)`). -/
inductive PyErr where
  | attributeError
  | valueError
  | typeError
  deriving DecidableEq, Repr

/-- Python truthiness of a JSON value (`if not liveboard_data: ...`). -/
def pyFalsy : JValue → Bool
  | .jnull => true
  | .jbool b => !b
  | .jnum n => n == 0
  | .jstr s => s.isEmpty
  | .jarr xs => xs.isEmpty
  | .jobj fields => fields.isEmpty

/-- First binding of a key in a field map (Python dict lookup; dicts hold
each key once, so the association-list representation is faithful). -/
def lookupField (fields : List (String × JValue)) (key : String) : Option JValue :=
  match fields with
  | [] => none
  | (k, v) :: rest => if k == key then some v else lookupField rest key

/-- Python `x.get(key, dflt)`: returns the stored value or the default on a
dict, and raises `AttributeError` when `x` is not a dict. -/
def pyGetD (v : JValue) (key : String) (dflt : JValue) : Except PyErr JValue :=
  match v with
  | .jobj fields => .ok ((lookupField fields key).getD dflt)
  | _ => .error .attributeError

/-- Decimal digit run to a number; `none` on an empty run or a non-digit. -/
def decDigits? (cs : List Char) : Option Nat :=
  match cs with
  | [] => none
  | _ =>
    cs.foldl
      (fun acc c =>
        match acc with
        | some a => if c.isDigit then some (a * 10 + (c.toNat - 48)) else none
        | none => none)
      (some 0)

/-- Python `int(s)` on a string: an optional sign followed by decimal
digits (surrounding whitespace, which no upstream value carries, is not
modelled). `none` corresponds to `ValueError`. -/
def strToInt? (s : String) : Option Int :=
  match s.data with
  | '-' :: rest => (decDigits? rest).map (fun n => -(n : Int))
  | '+' :: rest => (decDigits? rest).map (fun n => (n : Int))
  | cs => (decDigits? cs).map (fun n => (n : Int))

/-- Python `int(x)` on a JSON value: numbers pass through, booleans count
as 0/1, strings are parsed (`ValueError` on failure), anything else is a
`TypeError`. -/
def pyInt : JValue → Except PyErr Int
  | .jnum n => .ok n
  | .jbool b => .ok (if b then 1 else 0)
  | .jstr s =>
    match strToInt? s with
    | some n => .ok n
    | none => .error .valueError
  | _ => .error .typeError

/-- Python `x == "lit"` where `lit` is a string literal: true exactly for
an equal string; any non-string compares unequal (Python never coerces
here, e.g. `1 == "1"` and `True == "1"` are both `False`). -/
def pyEqStr (v : JValue) (lit : String) : Bool :=
  match v with
  | .jstr s => s == lit
  | _ => false

/-- Python `str.split(".")` on the underlying characters: every occurrence
of `'.'` starts a new segment, and the empty string splits to `[""]` — the
result is never the empty list. -/
def splitDotChars : List Char → List String
  | [] => [""]
  | c :: rest =>
    let r := splitDotChars rest
    if c = '.' then "" :: r
    else
      match r with
      | s :: tail => String.mk (c :: s.data) :: tail
      | [] => [String.mk [c]]

/-- Python `x.split(".")`: defined on strings, `AttributeError` otherwise
(e.g. `None.split`, `int.split`). -/
def pySplitDot : JValue → Except PyErr (List String)
  | .jstr s => .ok (splitDotChars s.data)
  | _ => .error .attributeError

/-- A timezone-aware datetime in the Europe/Brussels zone, represented by
the POSIX timestamp of the instant it denotes. -/
structure BrusselsDT where
  epoch : Int
  deriving DecidableEq, Repr

/-- The result of `datetime.fromtimestamp(t, tz=timezone.utc).astimezone(ZoneInfo("Europe/Brussels"))`. -/
def toBrussels (t : Int) : BrusselsDT := ⟨t⟩

/-- Adding `timedelta(seconds=s)` to a Brussels-zoned datetime. -/
def addSeconds (d : BrusselsDT) (s : Int) : BrusselsDT := ⟨d.epoch + s⟩

/-- Embedding of `IRailClient._parse_timestamp`: `int(timestamp_str)` then
epoch-to-Brussels conversion; `(ValueError, TypeError)` — exactly the
errors `pyInt` can produce — are caught and become `None`. -/
def parse_timestamp (v : JValue) : Option BrusselsDT :=
  match pyInt v with
  | .ok t => some (toBrussels t)
  | .error _ => none

/-- Embedding of the source expression
`scheduled_time + timedelta(seconds=delay) if scheduled_time and delay > 0 else scheduled_time`
(a `datetime` is always truthy; `None` is falsy). -/
def actualTimeOf (scheduled : Option BrusselsDT) (delay : Int) : Option BrusselsDT :=
  match scheduled with
  | some t => if 0 < delay then some (addSeconds t delay) else some t
  | none => none

/-- Embedding of the source expression `delay // 60 if delay > 0 else 0`
(Python `//` is floor division, `Int.fdiv`). -/
def delayMinutesOfDelay (delay : Int) : Int :=
  if 0 < delay then delay.fdiv 60 else 0

/-- One canonical schedule record, mirroring the `schedule_entry` dict built
by `IRailClient.__parse_liveboard_data`. Fields that the source copies
verbatim from the loosely typed payload stay `JValue`; `last_updated` is
absent until `update_schedules_logic` stamps it. -/
structure ScheduleRecord where
  train_id : JValue
  train_name : JValue
  direction : String
  departure_station : JValue
  arrival_station : JValue
  platform : JValue
  scheduled_time : Option BrusselsDT
  actual_time : Option BrusselsDT
  delay_minutes : Int
  canceled : Int
  current_status : String
  last_updated : Option BrusselsDT

/-- The local variables that `__parse_liveboard_data` computes for one raw
entry before building the `schedule_entry` dict. -/
structure ParsedFields where
  scheduled_time : Option BrusselsDT
  delay : Int
  actual_time : Option BrusselsDT
  vehicle_id : JValue
  vehicle_name : JValue
  platform : JValue
  stationField : JValue
  canceled : Int

/-- Field extraction for one raw entry, following the `try` block of
`__parse_liveboard_data` line by line: `schedule.get("time", "0")` into
`_parse_timestamp`; `int(schedule.get("delay", "0"))`; the actual-time
expression; `schedule.get("vehicle")`; `schedule.get("vehicleinfo", {})`;
`vehicle_info.get("shortname", vehicle_id.split(".")[-1])` (the default
argument is evaluated eagerly, so a missing or non-string `vehicle` raises
even when a short name is present); `schedule.get("platform", "")`;
`schedule.get("station", "")`; `1 if schedule.get("canceled", "0") == "1"
else 0`. Any raised `PyErr` surfaces as `.error`. -/
def parseFields (schedule : JValue) : Except PyErr ParsedFields := do
  let timeV ← pyGetD schedule "time" (.jstr "0")
  let scheduled_time := parse_timestamp timeV
  let delayV ← pyGetD schedule "delay" (.jstr "0")
  let delay ← pyInt delayV
  let actual_time := actualTimeOf scheduled_time delay
  let vehicle_id ← pyGetD schedule "vehicle" .jnull
  let vehicle_info ← pyGetD schedule "vehicleinfo" (.jobj [])
  let segs ← pySplitDot vehicle_id
  let vehicle_name ← pyGetD vehicle_info "shortname" (.jstr (segs.getLastD ""))
  let platform ← pyGetD schedule "platform" (.jstr "")
  let stationField ← pyGetD schedule "station" (.jstr "")
  let canceledV ← pyGetD schedule "canceled" (.jstr "0")
  .ok
    { scheduled_time, delay, actual_time, vehicle_id, vehicle_name, platform,
      stationField, canceled := if pyEqStr canceledV "1" then 1 else 0 }

/-- The `schedule_entry = { ... }` dict literal of
`__parse_liveboard_data`, applied to the extracted locals: the station
pair is resolved from `direction`, `"?"` platforms become `""`,
`delay_minutes` is `delay // 60 if delay > 0 else 0`, and
`current_status` is
`"Canceled" if canceled else ("Delayed" if delay > 0 else "On Time")`
(an `int` is truthy exactly when nonzero). -/
def buildRecord (station direction : String) (p : ParsedFields) : ScheduleRecord :=
  { train_id := p.vehicle_id
    train_name := p.vehicle_name
    direction := direction
    departure_station := if direction == "departure" then .jstr station else p.stationField
    arrival_station := if direction == "departure" then p.stationField else .jstr station
    platform := if pyEqStr p.platform "?" then .jstr "" else p.platform
    scheduled_time := p.scheduled_time
    actual_time := p.actual_time
    delay_minutes := delayMinutesOfDelay p.delay
    canceled := p.canceled
    current_status :=
      if p.canceled ≠ 0 then "Canceled"
      else if 0 < p.delay then "Delayed" else "On Time"
    last_updated := none }

/-- Normalization of one raw entry: extract the locals, then build the
record. -/
def parseEntry (station direction : String) (schedule : JValue) : Except PyErr ScheduleRecord :=
  (parseFields schedule).map (buildRecord station direction)

/-- The `for schedule in schedules:` loop of `__parse_liveboard_data`:
each entry is normalized inside a `try` whose `except Exception` logs and
`continue`s, so a failing entry is dropped and the loop itself never
raises. -/
def parseLoop (station direction : String) : List JValue → List ScheduleRecord
  | [] => []
  | e :: rest =>
    match parseEntry station direction e with
    | .ok r => r :: parseLoop station direction rest
    | .error _ => parseLoop station direction rest

/-- Python iteration over the extracted `schedules` value: a list yields
its elements, a dict yields its keys, a string yields its characters as
one-character strings, anything else raises `TypeError`. -/
def iterEntries : JValue → Except PyErr (List JValue)
  | .jarr xs => .ok xs
  | .jobj fields => .ok (fields.map (fun p => .jstr p.1))
  | .jstr s => .ok (s.data.map (fun c => .jstr (String.mk [c])))
  | _ => .error .typeError

/-- Embedding of `IRailClient.__parse_liveboard_data`: falsy payloads
short-circuit to `[]`; otherwise
`liveboard_data.get(f"{direction}s", {}).get(direction, [])` is extracted
(each `.get` raising `AttributeError` on a non-dict receiver, outside any
`try`) and the per-entry loop runs over the result. -/
def parse_liveboard_data (liveboard_data : JValue) (station direction : String) :
    Except PyErr (List ScheduleRecord) :=
  if pyFalsy liveboard_data then .ok []
  else do
    let directionsV ← pyGetD liveboard_data (direction ++ "s") (.jobj [])
    let schedulesV ← pyGetD directionsV direction (.jarr [])
    let entries ← iterEntries schedulesV
    .ok (parseLoop station direction entries)

/-- What `get_schedules` observes of one HTTP exchange:
`requestException` stands for a `requests.exceptions.RequestException`
raised by `session.get` itself (timeout, connection error); otherwise a
response arrives with a status code and a body whose JSON parse either
succeeds (`some`) or fails (`none`, the `JSONDecodeError` case). -/
inductive HttpResult where
  | requestException
  | response (status : Nat) (json : Option JValue)

/-- Embedding of `IRailClient.get_schedules`. `response.raise_for_status()`
raises `requests.exceptions.HTTPError` exactly for status codes 400–599
(client and server errors); that and any other `RequestException`, as well
as a `JSONDecodeError` from `response.json()`, are caught and become the
failure marker `none`. Exceptions raised by `__parse_liveboard_data`
(e.g. `AttributeError`) match neither `except` clause and propagate. -/
def get_schedules (station direction : String) (http : HttpResult) :
    Except PyErr (Option (List ScheduleRecord)) :=
  match http with
  | .requestException => .ok none
  | .response status json =>
    if 400 ≤ status ∧ status < 600 then .ok none
    else
      match json with
      | none => .ok none
      | some data => (parse_liveboard_data data station direction).map some

/-- Row-level SQL statements executed by `DatabaseClient` inside a
transaction: `DELETE FROM train_schedules` and one parameterized
`INSERT` per record. -/
inductive DbOp where
  | deleteAll
  | insertRow (r : ScheduleRecord)

/-- Effect of one statement on the table contents. -/
def applyOp : DbOp → List ScheduleRecord → List ScheduleRecord
  | .deleteAll, _ => []
  | .insertRow r, rows => rows ++ [r]

/-- Sequential execution of statements on the table contents. -/
def runOps : List DbOp → List ScheduleRecord → List ScheduleRecord
  | [], rows => rows
  | op :: rest, rows => runOps rest (applyOp op rows)

/-- One `with self.get_connection() as conn: ... conn.commit()` scope.
A failure anywhere before the commit raises and nothing is committed —
the spec instructs to assume the underlying transaction mechanism rolls
back atomically — so the caller observes the table unchanged; on success
all statements are committed together. -/
def runTransaction (ops : List DbOp) (fail : Bool) (rows : List ScheduleRecord) :
    Except Unit (List ScheduleRecord) :=
  if fail then .error () else .ok (runOps ops rows)

/-- Embedding of `DatabaseClient.clear_old_data`: one transaction that
deletes every row and commits. -/
def clear_old_data (fail : Bool) (rows : List ScheduleRecord) :
    Except Unit (List ScheduleRecord) :=
  runTransaction [.deleteAll] fail rows

/-- Embedding of `DatabaseClient.insert_schedules(schedules, clear_old_data)`:
one transaction that, when `clearOld` (the parameter defaults to `True` at
the call site), first deletes every row, then inserts each record in
order, then commits. -/
def insert_schedules (schedules : List ScheduleRecord) (clearOld : Bool) (fail : Bool)
    (rows : List ScheduleRecord) : Except Unit (List ScheduleRecord) :=
  runTransaction ((if clearOld then [DbOp.deleteAll] else []) ++ schedules.map DbOp.insertRow)
    fail rows

/-- What `update_schedules_logic` observes of one `get_schedules` call:
`none` is the failure marker, `some` a normalized list. A call that
raises instead (possible, see the `get_schedules` theorems) aborts the
run before any persistence call, so runs reaching the persistence step
are exactly those this oracle describes. -/
def FetchOracle := String → String → Option (List ScheduleRecord)

/-- Result of one `get_schedules` call as used by the aggregation loop:
`if schedules:` is falsy both for `None` and for `[]`, and in both cases
the count stays 0 and nothing is appended, so the pair contributes the
empty list. -/
def fetchResult (fetch : FetchOracle) (station direction : String) : List ScheduleRecord :=
  (fetch station direction).getD []

/-- The combined `all_schedules` list after the nested loops of
`update_schedules_logic`: for each station in order, the arrival results
then the departure results are appended. -/
def allSchedules (fetch : FetchOracle) (stations : List String) : List ScheduleRecord :=
  (stations.map (fun s => fetchResult fetch s "arrival" ++ fetchResult fetch s "departure")).flatten

/-- The `(station, direction)` pairs for which `update_schedules_logic`
invokes `get_schedules`, in invocation order: `for idx, station in
enumerate(stations): for direction in ["arrival", "departure"]: ...`. -/
def visitTrace (stations : List String) : List (String × String) :=
  (stations.map (fun s => ["arrival", "departure"].map (fun d => (s, d)))).flatten

/-- The `(station, direction)` pairs visited by the legacy `main` endpoint
in `src/update_schedules/__init__.py`, in invocation order: `for station
in stations: for direction in ["departure", "arrival"]: ...`. -/
def legacyMainTrace (stations : List String) : List (String × String) :=
  (stations.map (fun s => ["departure", "arrival"].map (fun d => (s, d)))).flatten

/-- The `schedule["last_updated"] = current_timestamp` mutation. -/
def stampRecord (now : BrusselsDT) (r : ScheduleRecord) : ScheduleRecord :=
  { r with last_updated := some now }

/-- The dict returned by `update_schedules_logic`. -/
structure Summary where
  stations : List String
  arrival_schedules_counts : List Nat
  departure_schedules_counts : List Nat
  total_schedules : Nat
  schedules : List ScheduleRecord

/-- One run of `update_schedules_logic` as observed from outside:
its return value (or the exception a failed database call raises), the
committed table contents afterwards, the `DatabaseClient` methods invoked
in order, and the `get_schedules` invocations in order. -/
structure RunOutcome where
  result : Except Unit Summary
  db : List ScheduleRecord
  gatewayCalls : List String
  trace : List (String × String)

/-- The tail of `update_schedules_logic` after the fetch loop, producing
the function's result (or the exception a failed transaction raises), the
committed table contents, and the `DatabaseClient` methods invoked in
order. Only when `all_schedules` is truthy (non-empty) does it call
`clear_old_data()` (a transaction of its own, committed on success),
capture `datetime.now(tz=ZoneInfo("Europe/Brussels"))` once, stamp every
combined record with it, and call `insert_schedules(all_schedules)`.
`failClear` and `failInsert` say whether the respective database
transaction fails. -/
def persistencePhase (all : List ScheduleRecord)
    (arrivalCounts departureCounts : List Nat) (stations : List String)
    (now : BrusselsDT) (failClear failInsert : Bool) (db0 : List ScheduleRecord) :
    Except Unit Summary × List ScheduleRecord × List String :=
  if all.isEmpty then
    (.ok
      { stations, arrival_schedules_counts := arrivalCounts,
        departure_schedules_counts := departureCounts,
        total_schedules := all.length, schedules := all },
      db0, ["create_tables_if_not_exist"])
  else
    match clear_old_data failClear db0 with
    | .error _ =>
      (.error (), db0, ["create_tables_if_not_exist", "clear_old_data"])
    | .ok db1 =>
      let stamped := all.map (stampRecord now)
      match insert_schedules stamped true failInsert db1 with
      | .error _ =>
        (.error (), db1,
          ["create_tables_if_not_exist", "clear_old_data", "insert_schedules"])
      | .ok db2 =>
        (.ok
          { stations, arrival_schedules_counts := arrivalCounts,
            departure_schedules_counts := departureCounts,
            total_schedules := stamped.length, schedules := stamped },
          db2, ["create_tables_if_not_exist", "clear_old_data", "insert_schedules"])

/-- Embedding of `update_schedules_logic` from `src/function_app.py`:
ensure the schema, run the fetch loop over every `(station, direction)`
pair, then run the persistence phase on the combined list. A failed
transaction raises out of the function, after which the table holds
whatever was last committed. -/
def update_schedules_logic (fetch : FetchOracle) (now : BrusselsDT)
    (failClear failInsert : Bool) (db0 : List ScheduleRecord) (stations : List String) :
    RunOutcome :=
  let phase := persistencePhase (allSchedules fetch stations)
    (stations.map (fun s => (fetchResult fetch s "arrival").length))
    (stations.map (fun s => (fetchResult fetch s "departure").length))
    stations now failClear failInsert db0
  { result := phase.1
    db := phase.2.1
    gatewayCalls := phase.2.2
    trace := visitTrace stations }

/-! Concrete inputs used to instantiate and to refute the claims. -/

/-- Raw upstream entry with `time="1700000000"` and `delay="120"`. -/
def cEntryC6 : JValue :=
  .jobj [("time", .jstr "1700000000"), ("delay", .jstr "120"),
         ("vehicle", .jstr "BE.NMBS.IC1832")]

/-- Raw upstream entry with a 30-second delay. -/
def cEntryDelay30 : JValue :=
  .jobj [("time", .jstr "1700000000"), ("delay", .jstr "30"),
         ("vehicle", .jstr "BE.NMBS.IC1832")]

/-- Extracted locals of an uncanceled entry with a 30-second delay. -/
def cFieldsDelay30 : ParsedFields :=
  { scheduled_time := some (toBrussels 1700000000), delay := 30,
    actual_time := some (toBrussels 1700000030),
    vehicle_id := .jstr "BE.NMBS.IC1832", vehicle_name := .jstr "IC1832",
    platform := .jstr "", stationField := .jstr "", canceled := 0 }

/-- Extracted locals of an entry whose `time` key was absent (so every
time-derived field came from the default `"0"`). -/
def cNoTimeFields : ParsedFields :=
  { scheduled_time := some (toBrussels 0), delay := 0,
    actual_time := some (toBrussels 0),
    vehicle_id := .jstr "BE.NMBS.IC1", vehicle_name := .jstr "IC1",
    platform := .jstr "", stationField := .jstr "", canceled := 0 }

/-- A normalized record as fetched in the current run. -/
def sampleRecord : ScheduleRecord :=
  { train_id := .jstr "BE.NMBS.IC1832", train_name := .jstr "IC1832",
    direction := "departure", departure_station := .jstr "Brussels-Central",
    arrival_station := .jstr "Ghent", platform := .jstr "3",
    scheduled_time := some (toBrussels 1700000000),
    actual_time := some (toBrussels 1700000000), delay_minutes := 0,
    canceled := 0, current_status := "On Time", last_updated := none }

/-- A row persisted by a previous aggregation run. -/
def sampleOld : ScheduleRecord :=
  { sampleRecord with train_id := .jstr "BE.NMBS.IC9999",
                      train_name := .jstr "IC9999" }

/-! Helper lemmas about the `Except` monad and the list-level database
model, shared by the claim theorems below. -/

theorem exceptBind_ok {ε α β : Type} {e : Except ε α} {f : α → Except ε β} {b : β}
    (h : e >>= f = .ok b) : ∃ a, e = .ok a ∧ f a = .ok b := by
  cases e with
  | error err => cases h
  | ok a => exact ⟨a, rfl, h⟩

theorem exceptMap_ok {ε α β : Type} {e : Except ε α} {f : α → β} {b : β}
    (h : e.map f = .ok b) : ∃ a, e = .ok a ∧ f a = b := by
  cases e with
  | error err => cases h
  | ok a => exact ⟨a, rfl, by cases h; rfl⟩

@[simp] theorem ok_bind {ε α β : Type} (a : α) (f : α → Except ε β) :
    ((.ok a : Except ε α) >>= f) = f a := rfl

@[simp] theorem error_bind {ε α β : Type} (e : ε) (f : α → Except ε β) :
    ((.error e : Except ε α) >>= f) = .error e := rfl

theorem runOps_insertRows (l rows : List ScheduleRecord) :
    runOps (l.map DbOp.insertRow) rows = rows ++ l := by
  induction l generalizing rows with
  | nil => simp [runOps]
  | cons r rest ih => simp [runOps, applyOp, ih]

theorem runOps_insertRows_map (f : ScheduleRecord → ScheduleRecord)
    (l rows : List ScheduleRecord) :
    runOps (List.map (DbOp.insertRow ∘ f) l) rows = rows ++ List.map f l := by
  rw [← List.map_map]
  exact runOps_insertRows _ _

theorem isEmpty_false_of_ne_nil {l : List ScheduleRecord} (h : l ≠ []) :
    l.isEmpty = false := by
  cases l with
  | nil => exact absurd rfl h
  | cons a t => rfl

theorem update_logic_db_success (fetch : FetchOracle) (now : BrusselsDT)
    (db0 : List ScheduleRecord) (stations : List String)
    (h : allSchedules fetch stations ≠ []) :
    (update_schedules_logic fetch now false false db0 stations).db
      = (allSchedules fetch stations).map (stampRecord now) := by
  have hne := isEmpty_false_of_ne_nil h
  have hclear : clear_old_data false db0 = Except.ok [] := by
    simp [clear_old_data, runTransaction, runOps, applyOp]
  have hins : insert_schedules ((allSchedules fetch stations).map (stampRecord now))
      true false [] = Except.ok ((allSchedules fetch stations).map (stampRecord now)) := by
    simp [insert_schedules, runTransaction, runOps, applyOp, runOps_insertRows,
      runOps_insertRows_map]
  simp [update_schedules_logic, persistencePhase, hne, hclear, hins, runOps_insertRows_map]

theorem parseFields_scheduled_of_no_time (fields : List (String × JValue)) (p : ParsedFields)
    (hl : lookupField fields "time" = none)
    (h : parseFields (.jobj fields) = .ok p) :
    p.scheduled_time = some (toBrussels 0) := by
  unfold parseFields at h
  obtain ⟨timeV, h1, h⟩ := exceptBind_ok h
  have htv : timeV = JValue.jstr "0" := by
    have hg : pyGetD (JValue.jobj fields) "time" (.jstr "0") = .ok (JValue.jstr "0") := by
      simp [pyGetD, hl]
    rw [hg] at h1
    cases h1
    rfl
  subst htv
  obtain ⟨delayV, h2, h⟩ := exceptBind_ok h
  obtain ⟨delay, h3, h⟩ := exceptBind_ok h
  obtain ⟨vid, h4, h⟩ := exceptBind_ok h
  obtain ⟨vinfo, h5, h⟩ := exceptBind_ok h
  obtain ⟨segs, h6, h⟩ := exceptBind_ok h
  obtain ⟨vname, h7, h⟩ := exceptBind_ok h
  obtain ⟨plat, h8, h⟩ := exceptBind_ok h
  obtain ⟨stat, h9, h⟩ := exceptBind_ok h
  obtain ⟨canc, h10, h⟩ := exceptBind_ok h
  cases h
  rfl

/-- Claim C1, corrected. `current_status` is `"Canceled"` iff the record
is canceled; otherwise it is `"Delayed"` iff the raw delay in SECONDS is
positive (not iff `delay_minutes > 0` as claimed); otherwise it is
`"On Time"`. `delay_minutes` floors the seconds, so the two sides of the
claimed iff come apart for delays of 1 to 59 seconds. -/
theorem c1_status_from_delay_seconds (station direction : String) (p : ParsedFields) :
    ((buildRecord station direction p).current_status = "Canceled" ↔ p.canceled ≠ 0)
    ∧ (p.canceled = 0 →
        ((buildRecord station direction p).current_status = "Delayed" ↔ 0 < p.delay))
    ∧ (p.canceled = 0 → p.delay ≤ 0 →
        (buildRecord station direction p).current_status = "On Time")
    ∧ (buildRecord station direction p).canceled = p.canceled
    ∧ (buildRecord station direction p).delay_minutes = delayMinutesOfDelay p.delay := by
  refine ⟨?_, ?_, ?_, rfl, rfl⟩
  · by_cases hc : p.canceled ≠ 0
    · simp [buildRecord, hc]
    · by_cases hd : 0 < p.delay <;> simp [buildRecord, hc, hd]
  · intro hc
    by_cases hd : 0 < p.delay <;> simp [buildRecord, hc, hd]
  · intro hc hd
    simp [buildRecord, hc, not_lt.mpr hd]

/-- Claim C1, witness for `c1_status_from_delay_seconds` at an uncanceled
30-second-delay entry. -/
theorem c1_witness :
    ((buildRecord "Brussels-Central" "departure" cFieldsDelay30).current_status = "Delayed"
      ↔ 0 < cFieldsDelay30.delay)
    ∧ (buildRecord "Brussels-Central" "departure" cFieldsDelay30).delay_minutes
      = delayMinutesOfDelay cFieldsDelay30.delay :=
  ⟨(c1_status_from_delay_seconds "Brussels-Central" "departure" cFieldsDelay30).2.1 rfl,
   (c1_status_from_delay_seconds "Brussels-Central" "departure" cFieldsDelay30).2.2.2.2⟩

/-- Claim C1, counterexample to the claim as stated: the raw entry with
`delay="30"` normalizes to a record whose `current_status` is
`"Delayed"` while `delay_minutes = 0` (and it is not canceled). -/
theorem c1_counterexample :
    (parseEntry "Brussels-Central" "departure" cEntryDelay30).map
      (fun r => (r.current_status, r.delay_minutes, r.canceled))
      = .ok ("Delayed", 0, 0) := rfl

/-- Claim C2, corrected. Only `insert_schedules` performs its delete and
its inserts inside one transaction; `update_schedules_logic` first runs
`clear_old_data` as a SEPARATE committed transaction. On full success the
table holds exactly the stamped combined records, but when the insert
transaction fails the previously stored snapshot has already been
deleted: the committed table is empty, not intact. -/
theorem c2_two_transaction_replace (fetch : FetchOracle) (now : BrusselsDT)
    (db0 : List ScheduleRecord) (stations : List String)
    (h : allSchedules fetch stations ≠ []) :
    (update_schedules_logic fetch now false false db0 stations).db
      = (allSchedules fetch stations).map (stampRecord now)
    ∧ (update_schedules_logic fetch now false true db0 stations).db = []
    ∧ (update_schedules_logic fetch now false true db0 stations).result = .error () := by
  have hne := isEmpty_false_of_ne_nil h
  have hclear : clear_old_data false db0 = Except.ok [] := by
    simp [clear_old_data, runTransaction, runOps, applyOp]
  refine ⟨update_logic_db_success fetch now db0 stations h, ?_, ?_⟩ <;>
    simp [update_schedules_logic, persistencePhase, hne, hclear, insert_schedules,
      runTransaction]

/-- Claim C2, witness for `c2_two_transaction_replace` at a one-station
run fetching one record over a one-row previous snapshot. -/
theorem c2_witness :
    (update_schedules_logic (fun _ _ => some [sampleRecord]) (toBrussels 1700000000)
        false false [sampleOld] ["Brussels-Central"]).db
      = (allSchedules (fun _ _ => some [sampleRecord]) ["Brussels-Central"]).map
          (stampRecord (toBrussels 1700000000))
    ∧ (update_schedules_logic (fun _ _ => some [sampleRecord]) (toBrussels 1700000000)
        false true [sampleOld] ["Brussels-Central"]).db = []
    ∧ (update_schedules_logic (fun _ _ => some [sampleRecord]) (toBrussels 1700000000)
        false true [sampleOld] ["Brussels-Central"]).result = .error () :=
  c2_two_transaction_replace (fun _ _ => some [sampleRecord]) (toBrussels 1700000000)
    [sampleOld] ["Brussels-Central"] (fun h => List.noConfusion h)

/-- Claim C2, counterexample to the claim as stated: with a non-empty
previous snapshot, a run whose insert transaction fails raises AND leaves
the table committed as empty — prior rows deleted, new records not
inserted — because `clear_old_data` had already committed in its own
transaction. -/
theorem c2_counterexample :
    (update_schedules_logic (fun _ _ => some [sampleRecord]) (toBrussels 1700000000)
        false true [sampleOld] ["Brussels-Central"]).result = .error ()
    ∧ (update_schedules_logic (fun _ _ => some [sampleRecord]) (toBrussels 1700000000)
        false true [sampleOld] ["Brussels-Central"]).db = []
    ∧ ([] : List ScheduleRecord) ≠ [sampleOld] :=
  ⟨rfl, rfl, fun h => List.noConfusion h⟩

/-- Claim C3, corrected. `get_schedules` returns the failure marker
`None` and raises nothing when the request itself raises (timeout,
connection error), when the HTTP status is 400–599 (the exact range for
which `raise_for_status` raises), and when the body is not valid JSON.
The claim's "non-2xx status" is too wide: statuses below 400 are not
error-handled (see `c3_counterexample`). -/
theorem c3_failure_marker (station direction : String) (status : Nat) (json : Option JValue) :
    get_schedules station direction .requestException = .ok none
    ∧ (400 ≤ status → status < 600 →
        get_schedules station direction (.response status json) = .ok none)
    ∧ get_schedules station direction (.response status none) = .ok none := by
  refine ⟨rfl, ?_, ?_⟩
  · intro h1 h2
    simp [get_schedules, h1, h2]
  · by_cases h : 400 ≤ status ∧ status < 600 <;> simp [get_schedules, h]

/-- Claim C3, witness for `c3_failure_marker` at status 503 and at an
invalid-JSON body. -/
theorem c3_witness :
    400 ≤ 503
    ∧ get_schedules "Brussels-Central" "departure" (.response 503 (some (.jobj []))) = .ok none
    ∧ get_schedules "Brussels-Central" "departure" (.response 200 none) = .ok none :=
  ⟨by decide,
   (c3_failure_marker "Brussels-Central" "departure" 503 (some (.jobj []))).2.1
     (by decide) (by decide),
   (c3_failure_marker "Brussels-Central" "departure" 200 none).2.2⟩

/-- Claim C3, counterexample to the claim as stated: a final response
with the non-2xx status 300 and a valid JSON body is parsed normally and
returns a list, not the failure marker `None`. -/
theorem c3_counterexample :
    get_schedules "Brussels-Central" "departure" (.response 300 (some (.jobj []))) = .ok (some [])
    ∧ (Except.ok (some ([] : List ScheduleRecord)) : Except PyErr (Option (List ScheduleRecord)))
        ≠ .ok none :=
  ⟨rfl, fun h => Option.noConfusion (Except.ok.inj h)⟩

/-- Claim C4, corrected. A falsy body, a body object without the
`"<direction>s"` key, and a `"<direction>s"` object without the
`"<direction>"` key all yield the empty entry list and a normal return.
But when the body (or, analogously, the `"<direction>s"` value) is a
TRUTHY NON-OBJECT, `.get` raises `AttributeError`, which matches neither
`except` clause of `get_schedules` and escapes to the caller — not the
claimed empty-list return. -/
theorem c4_missing_path_empty_list :
    (∀ (station direction : String) (data : JValue), pyFalsy data = true →
       parse_liveboard_data data station direction = .ok [])
    ∧ (∀ (station direction : String) (fields : List (String × JValue)),
       lookupField fields (direction ++ "s") = none →
       parse_liveboard_data (.jobj fields) station direction = .ok [])
    ∧ (∀ (station direction : String) (fields g : List (String × JValue)),
       lookupField fields (direction ++ "s") = some (.jobj g) →
       lookupField g direction = none →
       parse_liveboard_data (.jobj fields) station direction = .ok [])
    ∧ (∀ (station direction : String) (data : JValue), pyFalsy data = false →
       (∀ fs, data ≠ .jobj fs) →
       parse_liveboard_data data station direction = .error .attributeError) := by
  refine ⟨?_, ?_, ?_, ?_⟩
  · intro station direction data h
    simp [parse_liveboard_data, h]
  · intro station direction fields hl
    by_cases hf : pyFalsy (JValue.jobj fields) = true
    · simp [parse_liveboard_data, hf]
    · simp [parse_liveboard_data, hf, pyGetD, hl, lookupField, iterEntries, parseLoop]
  · intro station direction fields g hl hg
    cases fields with
    | nil => cases hl
    | cons kv rest =>
      simp [parse_liveboard_data, pyFalsy, pyGetD, hl, hg, iterEntries, parseLoop]
  · intro station direction data hfal hobj
    cases data with
    | jobj fs => exact absurd rfl (hobj fs)
    | jnull => simp [pyFalsy] at hfal
    | jbool b =>
      cases b with
      | true => simp [parse_liveboard_data, pyFalsy, pyGetD]
      | false => simp [pyFalsy] at hfal
    | jnum n => simp [parse_liveboard_data, hfal, pyGetD]
    | jstr s => simp [parse_liveboard_data, hfal, pyGetD]
    | jarr xs => simp [parse_liveboard_data, hfal, pyGetD]

/-- Claim C4, witness for `c4_missing_path_empty_list`: a body without
the `"departures"` key, a `"departures"` object without the
`"departure"` key, and a truthy non-object body. -/
theorem c4_witness :
    parse_liveboard_data (.jobj [("x", JValue.jnull)]) "Brussels-Central" "departure" = .ok []
    ∧ parse_liveboard_data (.jobj [("departures", .jobj [("x", JValue.jnull)])])
        "Brussels-Central" "departure" = .ok []
    ∧ parse_liveboard_data (.jarr [JValue.jnum 1]) "Brussels-Central" "departure"
        = .error .attributeError :=
  ⟨c4_missing_path_empty_list.2.1 "Brussels-Central" "departure" [("x", JValue.jnull)] rfl,
   c4_missing_path_empty_list.2.2.1 "Brussels-Central" "departure"
     [("departures", .jobj [("x", JValue.jnull)])] [("x", JValue.jnull)] rfl rfl,
   c4_missing_path_empty_list.2.2.2 "Brussels-Central" "departure" (.jarr [JValue.jnum 1])
     rfl (fun _fs h => JValue.noConfusion h)⟩

/-- Claim C4, counterexample to the claim as stated: a 200 response whose
valid JSON body is the non-object `[1]` makes `get_schedules` raise
`AttributeError` instead of returning the empty list. -/
theorem c4_counterexample :
    get_schedules "Brussels-Central" "departure" (.response 200 (some (.jarr [.jnum 1])))
      = .error .attributeError
    ∧ (Except.error PyErr.attributeError : Except PyErr (Option (List ScheduleRecord)))
        ≠ .ok (some []) :=
  ⟨rfl, fun h => Except.noConfusion h⟩

/-- Claim C5, confirmed. The per-entry loop catches every exception a
single entry's normalization can raise and skips just that entry: the
result is exactly the successfully normalized entries, in order, and its
length never exceeds the input's. The loop itself is a total function —
no exception crosses its boundary. -/
theorem c5_per_entry_error_isolation (station direction : String) (entries : List JValue) :
    parseLoop station direction entries
      = entries.filterMap (fun e => (parseEntry station direction e).toOption)
    ∧ (parseLoop station direction entries).length ≤ entries.length := by
  constructor
  · induction entries with
    | nil => rfl
    | cons e rest ih =>
      cases h : parseEntry station direction e with
      | ok r => simp [parseLoop, h, List.filterMap_cons, Except.toOption, ih]
      | error err => simp [parseLoop, h, List.filterMap_cons, Except.toOption, ih]
  · induction entries with
    | nil => simp [parseLoop]
    | cons e rest ih =>
      cases h : parseEntry station direction e with
      | ok r => simpa [parseLoop, h] using Nat.succ_le_succ ih
      | error err =>
        simp only [parseLoop, h, List.length_cons]
        omega

/-- Claim C6, confirmed. In general `delay_minutes` equals
`max(0, delaySeconds) // 60` and `actual_time` is `scheduled_time` shifted
by the delay exactly when the delay is positive; concretely, the entry
with `time="1700000000"` and `delay="120"` normalizes to the
Brussels-zoned conversion of epoch 1700000000, an actual time 120 seconds
later, and `delay_minutes = 2`. -/
theorem c6_timestamp_round_trip :
    (∀ d : Int, delayMinutesOfDelay d = (max 0 d).fdiv 60)
    ∧ (∀ (st : Option BrusselsDT) (d : Int),
        actualTimeOf st d = if 0 < d then st.map (fun t => addSeconds t d) else st)
    ∧ (parseEntry "Brussels-Central" "departure" cEntryC6).map
        (fun r => (r.scheduled_time, r.actual_time, r.delay_minutes))
      = .ok (some (toBrussels 1700000000), some (addSeconds (toBrussels 1700000000) 120), 2) := by
  refine ⟨?_, ?_, by rfl⟩
  · intro d
    unfold delayMinutesOfDelay
    by_cases h : 0 < d
    · rw [if_pos h, max_eq_right h.le]
    · rw [if_neg h, max_eq_left (le_of_not_lt h), Int.zero_fdiv]
  · intro st d
    cases st with
    | none => by_cases h : 0 < d <;> simp [actualTimeOf, h]
    | some t => by_cases h : 0 < d <;> simp [actualTimeOf, h]

/-- Claim C7, confirmed. When the combined list is non-empty, the
timestamp is captured once (a single `now` value, read after the fetch
loop) and every record the run persists carries exactly that
Europe/Brussels timestamp in `last_updated`. -/
theorem c7_single_last_updated_stamp (fetch : FetchOracle) (now : BrusselsDT)
    (db0 : List ScheduleRecord) (stations : List String)
    (h : allSchedules fetch stations ≠ []) :
    ∀ r ∈ (update_schedules_logic fetch now false false db0 stations).db,
      r.last_updated = some now := by
  intro r hr
  rw [update_logic_db_success fetch now db0 stations h] at hr
  obtain ⟨x, _, rfl⟩ := List.mem_map.mp hr
  rfl

/-- Claim C7, witness for `c7_single_last_updated_stamp` at a one-station
run fetching one record. -/
theorem c7_witness :
    allSchedules (fun _ _ => some [sampleRecord]) ["Brussels-Central"] ≠ []
    ∧ (stampRecord (toBrussels 1700000000) sampleRecord).last_updated
      = some (toBrussels 1700000000) :=
  ⟨fun h => List.noConfusion h,
   c7_single_last_updated_stamp (fun _ _ => some [sampleRecord]) (toBrussels 1700000000)
     [] ["Brussels-Central"] (fun h => List.noConfusion h)
     (stampRecord (toBrussels 1700000000) sampleRecord) (List.Mem.head _)⟩

/-- Claim C8, confirmed. When every fetch contributes zero records (the
combined list is empty), the run invokes neither `clear_old_data` nor
`insert_schedules` — only the schema check — and the previously stored
rows are untouched. -/
theorem c8_empty_result_short_circuit (fetch : FetchOracle) (now : BrusselsDT)
    (failClear failInsert : Bool) (db0 : List ScheduleRecord) (stations : List String)
    (h : allSchedules fetch stations = []) :
    (update_schedules_logic fetch now failClear failInsert db0 stations).gatewayCalls
      = ["create_tables_if_not_exist"]
    ∧ (update_schedules_logic fetch now failClear failInsert db0 stations).db = db0 := by
  constructor <;> simp [update_schedules_logic, persistencePhase, h]

/-- Claim C8, witness for `c8_empty_result_short_circuit` at a run in
which every fetch returns the failure marker. -/
theorem c8_witness :
    (update_schedules_logic (fun _ _ => none) (toBrussels 1700000000) false false
        [sampleOld] ["Brussels-Central"]).gatewayCalls = ["create_tables_if_not_exist"]
    ∧ (update_schedules_logic (fun _ _ => none) (toBrussels 1700000000) false false
        [sampleOld] ["Brussels-Central"]).db = [sampleOld] :=
  c8_empty_result_short_circuit (fun _ _ => none) (toBrussels 1700000000) false false
    [sampleOld] ["Brussels-Central"] rfl

/-- Claim C9, corrected. The core aggregator `update_schedules_logic`
does visit stations in the caller-supplied order with `"arrival"` before
`"departure"`; but the claim also covers the legacy aggregation loop of
`src/update_schedules/__init__.py`, which visits `"departure"` first (see
`c9_counterexample`). -/
theorem c9_visit_order (fetch : FetchOracle) (now : BrusselsDT)
    (failClear failInsert : Bool) (db0 : List ScheduleRecord) (stations : List String) :
    (update_schedules_logic fetch now failClear failInsert db0 stations).trace
      = stations.flatMap (fun s => [(s, "arrival"), (s, "departure")]) := by
  show visitTrace stations = _
  simp [visitTrace, List.flatMap]

/-- Claim C9, counterexample to the claim as stated: the legacy endpoint
visits `("Brussels-Central", "departure")` strictly before
`("Brussels-Central", "arrival")`, not in the claimed arrival-first
order. -/
theorem c9_counterexample :
    legacyMainTrace ["Brussels-Central"]
      = [("Brussels-Central", "departure"), ("Brussels-Central", "arrival")]
    ∧ legacyMainTrace ["Brussels-Central"]
      ≠ ["Brussels-Central"].flatMap (fun s => [(s, "arrival"), (s, "departure")]) :=
  ⟨rfl, by decide⟩

/-- Claim C10, corrected. An entry without a `time` key gets the default
`"0"`, so whenever the rest of the entry parses, the record is kept with
`scheduled_time` equal to the Brussels conversion of epoch 0 — a missing
`time` alone never causes a skip or an absent `scheduled_time`. The
claim's blanket "such an entry is kept" fails only because the SAME entry
can be skipped for an unrelated reason, e.g. a missing `vehicle` (see
`c10_counterexample`). -/
theorem c10_missing_time_defaults_epoch0 :
    (∀ (station direction : String) (fields : List (String × JValue)) (r : ScheduleRecord),
      lookupField fields "time" = none →
      parseEntry station direction (.jobj fields) = .ok r →
      r.scheduled_time = some (toBrussels 0))
    ∧ (parseEntry "Brussels-Central" "departure" (.jobj [("vehicle", .jstr "BE.NMBS.IC1")])).map
        (fun r => r.scheduled_time) = .ok (some (toBrussels 0)) := by
  constructor
  · intro station direction fields r hl h
    obtain ⟨p, hp, hb⟩ := exceptMap_ok h
    rw [← hb]
    exact parseFields_scheduled_of_no_time fields p hl hp
  · rfl

/-- Claim C10, witness for `c10_missing_time_defaults_epoch0` at an entry
holding only a `vehicle` key. -/
theorem c10_witness :
    (buildRecord "Brussels-Central" "departure" cNoTimeFields).scheduled_time
      = some (toBrussels 0) :=
  c10_missing_time_defaults_epoch0.1 "Brussels-Central" "departure"
    [("vehicle", .jstr "BE.NMBS.IC1")]
    (buildRecord "Brussels-Central" "departure" cNoTimeFields) rfl rfl

/-- Claim C10, counterexample to the claim as stated: the empty entry has
no `time` key yet is skipped (its missing `vehicle` raises
`AttributeError` inside the per-entry try), so not every entry lacking
`time` is kept. -/
theorem c10_counterexample :
    lookupField [] "time" = none
    ∧ parseEntry "Brussels-Central" "departure" (.jobj []) = .error .attributeError
    ∧ parseLoop "Brussels-Central" "departure" [.jobj []] = [] :=
  ⟨rfl, rfl, rfl⟩

end TrainSchedules
